import Mathlib

/-!
Shallow embedding of the core logic of `src/app.py` (CyberSentinel leak
auditor): the password-exposure client `check_password_pwned`, the breach
client `get_real_breaches`, the mock dataset `get_mock_breaches`, the risk
scorer `calculate_risk`, and the dashboard aggregation (fallback selection,
risk score, alert banner).

Machine integers are modelled as `Nat`/`Int` with explicit `% 2^32` where
the SHA-1 rounds overflow; fallible library calls (the HTTP request, which
may raise on network/timeout errors) are modelled as `Option`-valued
network oracles passed in as parameters; Python's bare `except:` that
converts any raised exception into a sentinel return is modelled by the
corresponding `Option`/error branches.
-/

namespace LeakAuditor

/-! ### SHA-1 (embedding of Python's `hashlib.sha1(...).hexdigest().upper()`)

`hashlib.sha1` is the standard SHA-1 algorithm (FIPS 180); we embed it
concretely over byte lists so that digests are computable inside Lean.
All words are `Nat` reduced mod 2^32. -/

/-- Truncate to a 32-bit word. -/
def w32 (n : Nat) : Nat := n % 4294967296

/-- Left rotation of a 32-bit word by `b` bits (for `n < 2^32`). -/
def rotl (b n : Nat) : Nat := w32 (Nat.lor (Nat.shiftLeft n b) (Nat.shiftRight n (32 - b)))

/-- Bitwise complement of a 32-bit word. -/
def wnot (n : Nat) : Nat := Nat.xor n 4294967295

/-- Big-endian byte encoding of `v` with exactly `w` bytes. -/
def beBytes : Nat → Nat → List Nat
  | 0, _ => []
  | w + 1, v => beBytes w (v / 256) ++ [v % 256]

/-- SHA-1 message padding: append `0x80`, zero bytes up to 56 mod 64, then
the 64-bit big-endian bit length. -/
def padMsg (msg : List Nat) : List Nat :=
  let len := msg.length
  let zeros := (120 - (len + 1) % 64) % 64
  msg ++ 128 :: List.replicate zeros 0 ++ beBytes 8 (8 * len)

/-- Split a byte list into 64-byte blocks (fuel-indexed structural recursion;
`fuel = l.length` always suffices since each step consumes 64 bytes). -/
def toBlocksFuel : Nat → List Nat → List (List Nat)
  | 0, _ => []
  | _, [] => []
  | fuel + 1, l => l.take 64 :: toBlocksFuel fuel (l.drop 64)

def toBlocks (l : List Nat) : List (List Nat) := toBlocksFuel l.length l

/-- Combine 4 bytes big-endian into a 32-bit word. -/
def beWord : List Nat → Nat
  | [b0, b1, b2, b3] => ((b0 * 256 + b1) * 256 + b2) * 256 + b3
  | _ => 0

/-- The 16 big-endian words of a 64-byte block. -/
def blockWords (block : List Nat) : List Nat :=
  (List.range 16).map (fun i => beWord ((block.drop (4 * i)).take 4))

/-- Extend the schedule: the list is kept most-recent-first, each step
prepends `rotl 1 (W[t-3] xor W[t-8] xor W[t-14] xor W[t-16])`. -/
def extendRev : Nat → List Nat → List Nat
  | 0, acc => acc
  | n + 1, acc =>
      extendRev n
        (rotl 1 (Nat.xor (Nat.xor (acc.getD 2 0) (acc.getD 7 0))
                         (Nat.xor (acc.getD 13 0) (acc.getD 15 0))) :: acc)

/-- The 80-word message schedule of a block. -/
def scheduleW (block : List Nat) : List Nat :=
  (extendRev 64 (blockWords block).reverse).reverse

/-- SHA-1 round function. -/
def shaF (t b c d : Nat) : Nat :=
  if t < 20 then Nat.lor (Nat.land b c) (Nat.land (wnot b) d)
  else if t < 40 then Nat.xor (Nat.xor b c) d
  else if t < 60 then Nat.lor (Nat.lor (Nat.land b c) (Nat.land b d)) (Nat.land c d)
  else Nat.xor (Nat.xor b c) d

/-- SHA-1 round constants. -/
def shaK (t : Nat) : Nat :=
  if t < 20 then 1518500249
  else if t < 40 then 1859775393
  else if t < 60 then 2400959708
  else 3395469782

/-- One pass over the 80 schedule words, threading (a,b,c,d,e). -/
def compress : List Nat → Nat → Nat × Nat × Nat × Nat × Nat → Nat × Nat × Nat × Nat × Nat
  | [], _, st => st
  | w :: rest, t, (a, b, c, d, e) =>
      let temp := w32 (rotl 5 a + shaF t b c d + e + shaK t + w)
      compress rest (t + 1) (temp, a, rotl 30 b, c, d)

/-- Process one 64-byte block, updating the hash state. -/
def processBlock (h : Nat × Nat × Nat × Nat × Nat) (block : List Nat) :
    Nat × Nat × Nat × Nat × Nat :=
  let (a, b, c, d, e) := compress (scheduleW block) 0 h
  (w32 (h.1 + a), w32 (h.2.1 + b), w32 (h.2.2.1 + c), w32 (h.2.2.2.1 + d), w32 (h.2.2.2.2 + e))

/-- SHA-1 of a byte list: the five 32-bit state words. -/
def sha1State (msg : List Nat) : Nat × Nat × Nat × Nat × Nat :=
  (toBlocks (padMsg msg)).foldl processBlock
    (1732584193, 4023233417, 2562383102, 271733878, 3285377520)

/-- Uppercase hex digit for a nibble value (`0-9`, `A-F`). -/
def hexDigitChar (n : Nat) : Char :=
  if n < 10 then Char.ofNat (48 + n) else Char.ofNat (55 + n)

/-- Fixed-width (8 characters) uppercase hex of a 32-bit word. -/
def hexWord8 (n : Nat) : List Char :=
  (List.range 8).map (fun i => hexDigitChar ((Nat.shiftRight n (4 * (7 - i))) % 16))

/-- UTF-8 encoding of one character (embedding of Python's
`str.encode('utf-8')`, per code point ranges). -/
def utf8Bytes (c : Char) : List Nat :=
  let n := c.toNat
  if n < 128 then [n]
  else if n < 2048 then [192 + n / 64, 128 + n % 64]
  else if n < 65536 then [224 + n / 4096, 128 + (n / 64) % 64, 128 + n % 64]
  else [240 + n / 262144, 128 + (n / 4096) % 64, 128 + (n / 64) % 64, 128 + n % 64]

/-- UTF-8 bytes of a string. -/
def strBytes (s : String) : List Nat := s.data.flatMap utf8Bytes

/-- Embedding of `hashlib.sha1(password.encode('utf-8')).hexdigest().upper()`:
the 40-character uppercase hex SHA-1 digest of a string. -/
def sha1HexUpper (s : String) : String :=
  let (h0, h1, h2, h3, h4) := sha1State (strBytes s)
  String.mk (hexWord8 h0 ++ hexWord8 h1 ++ hexWord8 h2 ++ hexWord8 h3 ++ hexWord8 h4)

/-! ### Python string primitives used by the source -/

/-- Split a character list at every occurrence of `sep`
(Python `str.split(sep)` for a one-character separator: `""` gives `[""]`,
separators at the ends give empty parts). -/
def splitOnChar (sep : Char) : List Char → List (List Char)
  | [] => [[]]
  | x :: xs =>
      if x = sep then [] :: splitOnChar sep xs
      else
        match splitOnChar sep xs with
        | p :: ps => (x :: p) :: ps
        | [] => [[x]]

/-- Python `s.split(sep)` for a one-character separator. -/
def pySplit (sep : Char) (s : String) : List String :=
  (splitOnChar sep s.data).map String.mk

/-- Python `str.splitlines()` for newline-delimited text: split at `'\n'`
and drop the trailing empty part a final newline would produce
(`"".splitlines() == []`, `"a\n".splitlines() == ["a"]`). -/
def splitlines (s : String) : List String :=
  let ps := pySplit '\n' s
  match ps.reverse with
  | "" :: rest => rest.reverse
  | _ => ps

/-- Python slice `s[:n]` (strings are sequences of code points). -/
def pyTake (s : String) (n : Nat) : String := String.mk (s.data.take n)

/-- Python slice `s[n:]`. -/
def pyDrop (s : String) (n : Nat) : String := String.mk (s.data.drop n)

/-- Python whitespace test for `int()` stripping (ASCII whitespace). -/
def isPySpace (c : Char) : Bool :=
  c = ' ' || c = '\t' || c = '\n' || c = '\r' || c = '\x0b' || c = '\x0c'

def isDigitChar (c : Char) : Bool := '0' ≤ c && c ≤ '9'

/-- Numeric value of a digit list (most significant first). -/
def digitsToNat (ds : List Char) : Nat :=
  ds.foldl (fun acc c => acc * 10 + (c.toNat - 48)) 0

/-- Embedding of Python `int(s)`: strip whitespace, optional sign, at least
one decimal digit; `none` models a raised `ValueError`. -/
def pyInt (s : String) : Option Int :=
  let cs := ((s.data.dropWhile isPySpace).reverse.dropWhile isPySpace).reverse
  match cs with
  | '-' :: ds =>
      if ds ≠ [] ∧ ds.all isDigitChar then some (-(digitsToNat ds : Int)) else none
  | '+' :: ds =>
      if ds ≠ [] ∧ ds.all isDigitChar then some (digitsToNat ds : Int) else none
  | ds =>
      if ds ≠ [] ∧ ds.all isDigitChar then some (digitsToNat ds : Int) else none

/-! ### PasswordExposure client (`check_password_pwned`, src/app.py:107-117)

The HTTP layer is modelled as a network oracle `net : String → Option
HttpResponse` mapping the request URL to either a response or `none`
(a raised exception: network error or timeout). The only data the
function hands to the oracle is the URL it builds. -/

structure HttpResponse where
  status_code : Nat
  text : String
deriving DecidableEq

/-- The outbound request URL of `check_password_pwned`:
`f"https://api.pwnedpasswords.com/range/{prefix}"` where the prefix is
`sha1pass[:5]`. -/
def pwnedRequestUrl (password : String) : String :=
  "https://api.pwnedpasswords.com/range/" ++ pyTake (sha1HexUpper password) 5

/-- The body of the `for line in res.text.splitlines()` loop run inside the
`try:` block: `h, count = line.split(':')` (a raised `ValueError` on a line
that does not split in exactly two is caught by `except: return -1`), then
`if h == suffix: return int(count)` (`int` may also raise). A completed
loop falls through to `return 0`. -/
def scanLines : List String → String → Int
  | [], _ => 0
  | line :: rest, sfx =>
      match pySplit ':' line with
      | [h, count] =>
          if h = sfx then
            match pyInt count with
            | some n => n
            | none => -1
          else scanLines rest sfx
      | _ => -1

/-- Embedding of `check_password_pwned(password)` (src/app.py:107-117),
parameterized by the network oracle. `none` from the oracle models a
raised request exception, handled by `except: return -1`; a response with
`status_code == 200` is scanned line by line; any other status code falls
through to the final `return 0`. -/
def check_password_pwned (password : String) (net : String → Option HttpResponse) : Int :=
  let sha1pass := sha1HexUpper password
  let sfx := pyDrop sha1pass 5
  match net (pwnedRequestUrl password) with
  | none => -1
  | some res =>
      if res.status_code = 200 then scanLines (splitlines res.text) sfx
      else 0

/-! ### Breach model and BreachSource client (`get_real_breaches`,
`get_mock_breaches`, src/app.py:81-105) -/

/-- A breach record as the Python dicts built in `get_mock_breaches` /
`get_real_breaches`. `Name` is `Option String` because a source dict
without a `'name'` key yields Python `None`. -/
structure Breach where
  Name : Option String
  BreachDate : String
  DataClasses : List String
  Description : String
deriving DecidableEq

/-- Embedding of `get_mock_breaches()` (src/app.py:81-87). -/
def get_mock_breaches : List Breach :=
  [ { Name := some "LinkedIn", BreachDate := "2016-05-17",
      DataClasses := ["Email", "Passwords", "Job titles"],
      Description := "164 Million accounts exposed in massive professional network hack." },
    { Name := some "Adobe", BreachDate := "2013-10-04",
      DataClasses := ["Email", "Hints", "Usernames"],
      Description := "153 Million accounts exposed affecting Creative Cloud users." },
    { Name := some "Zomato", BreachDate := "2017-05-18",
      DataClasses := ["Email", "Passwords"],
      Description := "17 Million user records leaked from food delivery giant." },
    { Name := some "Canva", BreachDate := "2019-05-24",
      DataClasses := ["Email", "Names", "Locations"],
      Description := "Graphic design platform database compromised." } ]

/-- One entry of the `sources` array in the leakcheck response: Python code
distinguishes `isinstance(source, dict)` (then `source.get('name')`, which
may be `None`) from a bare string. -/
inductive SourceEntry where
  | str (s : String)
  | obj (name : Option String)
deriving DecidableEq

/-- The parsed JSON body of the leakcheck response, restricted to the two
fields the code reads: `success` is the truthiness of `data.get('success')`;
`sources` is the list under `data.get('sources')` (an absent or null field
behaves exactly like `[]` in the only use `data.get('sources')` gets, a
truthiness test). -/
structure LeakCheckData where
  success : Bool
  sources : List SourceEntry
deriving DecidableEq

/-- Embedding of `name = source.get('name') if isinstance(source, dict) else source`
followed by the record literal of src/app.py:98-101. -/
def normalizeSource (source : SourceEntry) : Breach :=
  { Name := match source with
            | .obj name => name
            | .str s => some s,
    BreachDate := "2021-01-01",
    DataClasses := ["Email", "Password"],
    Description := "Public Database Leak" }

/-- The outbound request URL of `get_real_breaches`:
`f"https://leakcheck.io/api/public?check={email}"`. -/
def leakCheckUrl (email : String) : String :=
  "https://leakcheck.io/api/public?check=" ++ email

/-- Embedding of `get_real_breaches(email)` (src/app.py:89-105),
parameterized by the network oracle; `none` from the oracle models any
exception inside the `try:` block (transport error, timeout, or
`response.json()` raising on a malformed body), all swallowed by the bare
`except: return None`. The Python return values map as: `None` ↦ `none`
(FAILURE), `[]` ↦ `some []` (EMPTY), a breach list ↦ `some list`. -/
def get_real_breaches (email : String) (net : String → Option LeakCheckData) :
    Option (List Breach) :=
  match net (leakCheckUrl email) with
  | none => none
  | some data =>
      if data.success && !data.sources.isEmpty then
        some (data.sources.map normalizeSource)
      else some []

/-! ### Risk scoring engine (`calculate_risk`, src/app.py:119-125) -/

/-- The fixed weight table `{'Passwords': 30, 'Email': 10, 'Phone': 50}`. -/
def weightTable : List (String × Int) := [("Passwords", 30), ("Email", 10), ("Phone", 50)]

/-- Embedding of `weights.get(dtype, 15)`. -/
def weightOf (dtype : String) : Int := (weightTable.lookup dtype).getD 15

/-- Embedding of `calculate_risk(breaches)` (src/app.py:119-125): sum the
weight of every tag of every record, then `min(score, 100)`. -/
def calculate_risk (breaches : List Breach) : Int :=
  min (breaches.foldl
        (fun score b => b.DataClasses.foldl (fun s dtype => s + weightOf dtype) score) 0)
      100

/-! ### Dashboard aggregation (src/app.py:162-193)

The dashboard keeps `breaches` as whatever `get_real_breaches` returned
(possibly Python `None`), optionally substitutes the mock data, and then
tests truthiness (`if breaches`) before scoring or counting. -/

/-- Python truthiness of the `breaches` variable (`None` and `[]` are falsy). -/
def pyTruthy : Option (List Breach) → Bool
  | none => false
  | some [] => false
  | some (_ :: _) => true

/-- Embedding of the fallback selection (src/app.py:166-170):
`is_sim = False; if not breaches and email_input == "demo@test.com":
breaches = get_mock_breaches(); is_sim = True`. Returns the final
`(breaches, is_sim)` state. -/
def selectBreaches (email : String) (live : Option (List Breach)) :
    Option (List Breach) × Bool :=
  if !pyTruthy live && (email = "demo@test.com") then (some get_mock_breaches, true)
  else (live, false)

/-- Embedding of `risk_score = calculate_risk(breaches) if breaches else 0` (src/app.py:172). -/
def dashboardRisk (breaches : Option (List Breach)) : Int :=
  if pyTruthy breaches then calculate_risk (breaches.getD []) else 0

/-- The three alert banners of src/app.py:175-180. -/
inductive Banner where
  | critical
  | moderate
  | secure
deriving DecidableEq

/-- Embedding of `if risk_score > 50: st.error(...) elif risk_score > 0: st.warning(...)
else: st.success("✅ SYSTEM SECURE: No data breaches found.")`. -/
def alertBanner (risk_score : Int) : Banner :=
  if risk_score > 50 then .critical
  else if risk_score > 0 then .moderate
  else .secure

/-- The user-visible dashboard state computed from an email and the live
lookup result: risk score, alert banner, `is_sim`, and the
`len(breaches) if breaches else 0` metric (src/app.py:164-193). -/
def dashboardView (email : String) (live : Option (List Breach)) :
    Int × Banner × Bool × Nat :=
  let sel := selectBreaches email live
  let risk := dashboardRisk sel.1
  (risk, alertBanner risk, sel.2, if pyTruthy sel.1 then (sel.1.getD []).length else 0)

/-! ### Claim-facing auxiliary definitions -/

/-- Uppercase hexadecimal character (`0-9` or `A-F`). -/
def isUpperHexChar (c : Char) : Bool :=
  ('0' ≤ c && c ≤ '9') || ('A' ≤ c && c ≤ 'F')

/-- A well-formed range-response line: exactly one `:`, with a count that
parses as an integer. -/
def wellFormedLine (line : String) : Bool :=
  match pySplit ':' line with
  | [_, count] => (pyInt count).isSome
  | _ => false

/-- The spec's reading of the local scan over a well-formed range
response: return the count of the first line whose suffix field equals
the computed digest suffix (case-sensitive string equality); if no line
matches, return 0. -/
def lookupCount : List String → String → Int
  | [], _ => 0
  | line :: rest, sfx =>
      match pySplit ':' line with
      | [h, count] => if h = sfx then (pyInt count).getD 0 else lookupCount rest sfx
      | _ => lookupCount rest sfx

/-! ### Helper lemmas -/

/-- The weight lookup, written out: 30 / 10 / 50 for the three table
entries, 15 otherwise. -/
lemma weightOf_eq (d : String) :
    weightOf d =
      if d = "Passwords" then 30 else if d = "Email" then 10
      else if d = "Phone" then 50 else 15 := by
  simp only [weightOf, weightTable, List.lookup]
  repeat' split
  all_goals simp_all

lemma weightOf_nonneg (d : String) : 0 ≤ weightOf d := by
  rw [weightOf_eq]; split_ifs <;> norm_num

lemma weightOf_ge_ten (d : String) : 10 ≤ weightOf d := by
  rw [weightOf_eq]; split_ifs <;> norm_num

lemma weightOf_le_fifty (d : String) : weightOf d ≤ 50 := by
  rw [weightOf_eq]; split_ifs <;> norm_num

/-- Total weight contributed by one breach record. -/
def recWeight (b : Breach) : Int := (b.DataClasses.map weightOf).sum

lemma foldl_tag_eq (l : List String) (s : Int) :
    l.foldl (fun a dtype => a + weightOf dtype) s = s + (l.map weightOf).sum := by
  induction l generalizing s with
  | nil => simp
  | cons d l ih => simp [List.foldl_cons, ih, add_assoc]

lemma foldl_breach_eq (bs : List Breach) (s : Int) :
    bs.foldl (fun score b => b.DataClasses.foldl (fun a dtype => a + weightOf dtype) score) s
      = s + (bs.map recWeight).sum := by
  induction bs generalizing s with
  | nil => simp
  | cons b bs ih =>
      rw [List.foldl_cons, ih, foldl_tag_eq]
      simp [recWeight, add_assoc]

/-- Unfolding of `calculate_risk` as a clamped sum of per-record weights. -/
lemma calculate_risk_eq (bs : List Breach) :
    calculate_risk bs = min ((bs.map recWeight).sum) 100 := by
  simp [calculate_risk, foldl_breach_eq]

lemma recWeight_nonneg (b : Breach) : 0 ≤ recWeight b := by
  refine List.sum_nonneg ?_
  intro x hx
  rcases List.mem_map.mp hx with ⟨d, _, rfl⟩
  exact weightOf_nonneg d

/-- Unfolding of the digest to its five 8-character word encodings. -/
lemma sha1HexUpper_data (s : String) :
    (sha1HexUpper s).data =
      hexWord8 (sha1State (strBytes s)).1 ++ hexWord8 (sha1State (strBytes s)).2.1
      ++ hexWord8 (sha1State (strBytes s)).2.2.1 ++ hexWord8 (sha1State (strBytes s)).2.2.2.1
      ++ hexWord8 (sha1State (strBytes s)).2.2.2.2 := by
  unfold sha1HexUpper
  set t := sha1State (strBytes s) with ht
  obtain ⟨a, b, c, d, e⟩ := t
  rfl

/-- The digest always has exactly 40 characters. -/
lemma sha1HexUpper_length (s : String) : (sha1HexUpper s).length = 40 := by
  have h : (sha1HexUpper s).length = (sha1HexUpper s).data.length := rfl
  rw [h, sha1HexUpper_data]
  simp [hexWord8]

lemma hexDigitChar_hex : ∀ k, k < 16 → isUpperHexChar (hexDigitChar k) = true := by decide

lemma hexWord8_hex (n : Nat) : ∀ c ∈ hexWord8 n, isUpperHexChar c = true := by
  intro c hc
  rcases List.mem_map.mp hc with ⟨i, _, rfl⟩
  exact hexDigitChar_hex _ (Nat.mod_lt _ (by norm_num))

/-- Every character of the digest is an uppercase hex character. -/
lemma sha1HexUpper_hex (s : String) : ∀ c ∈ (sha1HexUpper s).data, isUpperHexChar c = true := by
  intro c hc
  rw [sha1HexUpper_data] at hc
  simp only [List.mem_append] at hc
  rcases hc with ((((h | h) | h) | h) | h) <;> exact hexWord8_hex _ _ h

/-- A line that does not split into exactly two fields at `:` makes the
scan raise (`ValueError` on unpacking), caught as `-1`. -/
lemma scanLines_cons_malformed (line : String) (rest : List String) (sfx : String)
    (h : (pySplit ':' line).length ≠ 2) : scanLines (line :: rest) sfx = -1 := by
  match hps : pySplit ':' line with
  | [] => simp [scanLines, hps]
  | [a] => simp [scanLines, hps]
  | [a, b] => exact absurd (by rw [hps]; rfl) h
  | a :: b :: c :: l => simp [scanLines, hps]

/-- On a response whose every line is well formed, the code's scan agrees
with the spec's reading of the scan. -/
lemma scanLines_eq_lookupCount (lines : List String) (sfx : String)
    (h : ∀ l ∈ lines, wellFormedLine l = true) :
    scanLines lines sfx = lookupCount lines sfx := by
  induction lines with
  | nil => rfl
  | cons line rest ih =>
      have hline := h line (List.mem_cons_self line rest)
      have hrest : ∀ l ∈ rest, wellFormedLine l = true :=
        fun l hl => h l (List.mem_cons_of_mem _ hl)
      match hps : pySplit ':' line with
      | [] => simp [wellFormedLine, hps] at hline
      | [a] => simp [wellFormedLine, hps] at hline
      | [a, b] =>
          rcases hpi : pyInt b with _ | n
          · simp [wellFormedLine, hps, hpi] at hline
          · by_cases ha : a = sfx <;>
              simp [scanLines, lookupCount, hps, hpi, ha, ih hrest]
      | a :: b :: c :: l => simp [wellFormedLine, hps] at hline

/-! ### Claims -/

set_option maxRecDepth 100000

/-- C1 (counterexample): the claim says any unsuccessful response from the
range endpoint makes `check_password_pwned` return the failure sentinel
`-1`; but on a 503 response the code falls through to `return 0`, so a
failure case does return 0. -/
theorem c1_counterexample :
    check_password_pwned "abc" (fun _ => some { status_code := 503, text := "" }) = 0
    ∧ check_password_pwned "abc" (fun _ => some { status_code := 503, text := "" }) ≠ -1 := by
  exact ⟨rfl, by decide⟩

/-- C1 (amended): a network/timeout error (raised request exception) makes
`check_password_pwned` return `-1`, and so does a malformed leading line of
a 200 response (one not splitting into exactly two fields at `:`), and
`-1 ≠ 0`; however a response with a status code other than 200 makes the
function return 0, conflating HTTP-level failure with zero exposures. -/
theorem c1_failure_sentinel (p : String) (net : String → Option HttpResponse) :
    (net (pwnedRequestUrl p) = none → check_password_pwned p net = -1)
    ∧ (∀ res, net (pwnedRequestUrl p) = some res → res.status_code ≠ 200 →
        check_password_pwned p net = 0)
    ∧ (∀ res line rest, net (pwnedRequestUrl p) = some res → res.status_code = 200 →
        splitlines res.text = line :: rest → (pySplit ':' line).length ≠ 2 →
        check_password_pwned p net = -1)
    ∧ ((-1 : Int) ≠ 0) := by
  refine ⟨?_, ?_, ?_, by decide⟩
  · intro h
    simp [check_password_pwned, h]
  · intro res h hs
    simp [check_password_pwned, h, hs]
  · intro res line rest h hs hsplit hbad
    simp only [check_password_pwned, h]
    rw [if_pos hs, hsplit]
    exact scanLines_cons_malformed line rest _ hbad

/-- C1 (witness): a raised request exception at a concrete password yields
the `-1` sentinel. -/
theorem c1_witness : check_password_pwned "abc" (fun _ => none) = -1 :=
  (c1_failure_sentinel "abc" (fun _ => none)).1 rfl

/-- C2: the outbound request of `check_password_pwned` is the fixed range
endpoint followed by exactly the first 5 characters of the 40-character
uppercase-hex SHA-1 digest of the password; those 5 characters are
uppercase hex; and any two passwords whose digests share that 5-character
slice produce the identical outbound request, so neither the password nor
the full digest reaches the request. -/
theorem c2_outbound_prefix_only (p : String) :
    pwnedRequestUrl p = "https://api.pwnedpasswords.com/range/" ++ pyTake (sha1HexUpper p) 5
    ∧ (sha1HexUpper p).length = 40
    ∧ (pyTake (sha1HexUpper p) 5).length = 5
    ∧ (∀ c ∈ (pyTake (sha1HexUpper p) 5).data, isUpperHexChar c = true)
    ∧ (∀ q : String, pyTake (sha1HexUpper q) 5 = pyTake (sha1HexUpper p) 5 →
        pwnedRequestUrl q = pwnedRequestUrl p) := by
  refine ⟨rfl, sha1HexUpper_length p, ?_, ?_, ?_⟩
  · have h : (pyTake (sha1HexUpper p) 5).length = ((sha1HexUpper p).data.take 5).length := rfl
    have h40 : (sha1HexUpper p).data.length = 40 := sha1HexUpper_length p
    rw [h, List.length_take, h40]
    decide
  · intro c hc
    have hc' : c ∈ (sha1HexUpper p).data.take 5 := hc
    exact sha1HexUpper_hex p c (List.mem_of_mem_take hc')
  · intro q hq
    unfold pwnedRequestUrl
    rw [hq]

/-- C2 (witness): instantiated at the password `"abc"`, whose digest slice
is `"A9993"`; its first character is uppercase hex, and an equal slice
yields an equal request. -/
theorem c2_witness :
    isUpperHexChar 'A' = true ∧ pwnedRequestUrl "abc" = pwnedRequestUrl "abc" :=
  ⟨(c2_outbound_prefix_only "abc").2.2.2.1 'A' (by decide),
   (c2_outbound_prefix_only "abc").2.2.2.2 "abc" rfl⟩

/-- C3: for every breach list, `calculate_risk` returns an integer in the
inclusive range [0,100]; the clamp holds for any list. -/
theorem c3_risk_in_range (breaches : List Breach) :
    0 ≤ calculate_risk breaches ∧ calculate_risk breaches ≤ 100 := by
  rw [calculate_risk_eq]
  refine ⟨le_min (List.sum_nonneg ?_) (by norm_num), min_le_right _ _⟩
  intro x hx
  rcases List.mem_map.mp hx with ⟨b, _, rfl⟩
  exact recWeight_nonneg b

/-- C4: the mock fallback is substituted (and `is_sim` set) exactly when
the live lookup was `None` (FAILURE) or `[]` (EMPTY) and the email is the
demo identifier; when active it substitutes exactly the mock dataset; and
for any other email an EMPTY live result keeps `is_sim = False` and the
breach list empty. -/
theorem c4_fallback_gating (email : String) (live : Option (List Breach)) :
    ((selectBreaches email live).2 = true ↔
        ((live = none ∨ live = some []) ∧ email = "demo@test.com"))
    ∧ ((selectBreaches email live).2 = true →
        (selectBreaches email live).1 = some get_mock_breaches)
    ∧ (email ≠ "demo@test.com" → selectBreaches email (some []) = (some [], false)) := by
  by_cases he : email = "demo@test.com" <;>
    rcases live with _ | (_ | ⟨b, bs⟩) <;>
      simp [selectBreaches, pyTruthy, he]

/-- C4 (witness): with the demo email and a failed live lookup the fallback
activates and substitutes the mock dataset; with another email and an empty
live result it stays off. -/
theorem c4_witness :
    (selectBreaches "demo@test.com" none).2 = true
    ∧ (selectBreaches "demo@test.com" none).1 = some get_mock_breaches
    ∧ selectBreaches "user@example.com" (some []) = (some [], false) :=
  ⟨(c4_fallback_gating "demo@test.com" none).1.mpr ⟨Or.inl rfl, rfl⟩,
   (c4_fallback_gating "demo@test.com" none).2.1
     ((c4_fallback_gating "demo@test.com" none).1.mpr ⟨Or.inl rfl, rfl⟩),
   (c4_fallback_gating "user@example.com" (some [])).2.2 (by decide)⟩

/-- C5: `get_real_breaches` returns the EMPTY sentinel (`some []`) on a
successful response with no matches, the FAILURE sentinel (`none`) on any
raised exception (transport error or malformed body), and the two
sentinels are distinguishable; failures are returned as values, never
raised (the embedding is a total function). -/
theorem c5_fetch_sentinels (email : String) (net : String → Option LeakCheckData) :
    (net (leakCheckUrl email) = none → get_real_breaches email net = none)
    ∧ (∀ d, net (leakCheckUrl email) = some d → d.success = true → d.sources = [] →
        get_real_breaches email net = some [])
    ∧ (some ([] : List Breach) ≠ (none : Option (List Breach))) := by
  refine ⟨?_, ?_, by simp⟩
  · intro h
    simp [get_real_breaches, h]
  · intro d h hs hsrc
    simp [get_real_breaches, h, hs, hsrc]

/-- C5 (witness): a raised exception maps to `none`, a successful empty
response maps to `some []`. -/
theorem c5_witness :
    get_real_breaches "a@b.com" (fun _ => none) = none
    ∧ get_real_breaches "a@b.com" (fun _ => some { success := true, sources := [] })
        = some [] :=
  ⟨(c5_fetch_sentinels "a@b.com" (fun _ => none)).1 rfl,
   (c5_fetch_sentinels "a@b.com" (fun _ => some { success := true, sources := [] })).2.1
     { success := true, sources := [] } rfl rfl rfl⟩

/-- C6 (counterexample): in the weight table, `Phone` carries weight 50
while `Passwords` carries 30, refuting that password-related categories
carry the highest weight of any category. -/
theorem c6_counterexample :
    weightOf "Phone" = 50 ∧ weightOf "Passwords" = 30
    ∧ weightOf "Passwords" < weightOf "Phone" := by
  decide

/-- C6 (amended): the table maps `Passwords` to 30, `Email` to 10, `Phone`
to 50, and every unrecognized category to the default 15; contact-email is
the lowest weight and the default lies strictly between the lowest and the
highest listed weight — but the highest weight is the phone category, not
the password category. -/
theorem c6_weight_table_amended :
    weightOf "Passwords" = 30 ∧ weightOf "Email" = 10 ∧ weightOf "Phone" = 50
    ∧ (∀ d, d ≠ "Passwords" → d ≠ "Email" → d ≠ "Phone" → weightOf d = 15)
    ∧ (∀ d, weightOf "Email" ≤ weightOf d)
    ∧ (∀ d, weightOf d ≤ weightOf "Phone")
    ∧ weightOf "Email" < 15 ∧ (15 : Int) < weightOf "Phone" := by
  refine ⟨by decide, by decide, by decide, ?_, ?_, ?_, by decide, by decide⟩
  · intro d h1 h2 h3
    rw [weightOf_eq]
    simp [h1, h2, h3]
  · intro d
    rw [show weightOf "Email" = 10 from by decide]
    exact weightOf_ge_ten d
  · intro d
    rw [show weightOf "Phone" = 50 from by decide]
    exact weightOf_le_fifty d

/-- C6 (witness): the unrecognized category `"SSN"` receives the default
mid-weight 15, which is at least the email weight. -/
theorem c6_witness : weightOf "SSN" = 15 ∧ weightOf "Email" ≤ weightOf "SSN" :=
  ⟨c6_weight_table_amended.2.2.2.1 "SSN" (by decide) (by decide) (by decide),
   c6_weight_table_amended.2.2.2.2.1 "SSN"⟩

/-- C7: on a 200 range response whose every line is well formed, the scan
returns the count of the first line whose suffix field equals the computed
35-character digest suffix under case-sensitive string equality, and 0
when no line matches (`lookupCount` is exactly that reading of the spec). -/
theorem c7_suffix_scan (p : String) (text : String)
    (h : ∀ line ∈ splitlines text, wellFormedLine line = true) :
    check_password_pwned p (fun _ => some { status_code := 200, text := text })
      = lookupCount (splitlines text) (pyDrop (sha1HexUpper p) 5)
    ∧ (pyDrop (sha1HexUpper p) 5).length = 35 := by
  constructor
  · simp only [check_password_pwned]
    rw [if_pos trivial]
    exact scanLines_eq_lookupCount _ _ h
  · have he : (pyDrop (sha1HexUpper p) 5).length = ((sha1HexUpper p).data.drop 5).length := rfl
    have h40 : (sha1HexUpper p).data.length = 40 := sha1HexUpper_length p
    rw [he, List.length_drop, h40]

/-- C7 (witness): the digest suffix of `"abc"` injected as a range line
with count 37 makes `check_password_pwned` return 37. -/
theorem c7_witness :
    check_password_pwned "abc"
      (fun _ => some { status_code := 200,
                       text := "E364706816ABA3E25717850C26C9CD0D89D:37" }) = 37 := by
  have h := (c7_suffix_scan "abc" "E364706816ABA3E25717850C26C9CD0D89D:37" (by decide)).1
  rw [h]
  decide

/-- C8: `calculate_risk` is a pure deterministic function of the breach
list's `DataClasses`: equal tag lists give equal scores, and permuting the
records or the tags inside each record never changes the score. -/
theorem c8_risk_pure (bs₁ bs₂ : List Breach) :
    calculate_risk bs₁ = calculate_risk bs₁
    ∧ (bs₁.map Breach.DataClasses = bs₂.map Breach.DataClasses →
        calculate_risk bs₁ = calculate_risk bs₂)
    ∧ (bs₁.Perm bs₂ → calculate_risk bs₁ = calculate_risk bs₂)
    ∧ (List.Forall₂ (fun a b => a.DataClasses.Perm b.DataClasses) bs₁ bs₂ →
        calculate_risk bs₁ = calculate_risk bs₂) := by
  refine ⟨rfl, ?_, ?_, ?_⟩
  · intro h
    have key : ∀ bs : List Breach, bs.map recWeight
        = (bs.map Breach.DataClasses).map (fun l => (l.map weightOf).sum) := by
      intro bs
      rw [List.map_map]
      rfl
    rw [calculate_risk_eq, calculate_risk_eq, key, key, h]
  · intro h
    rw [calculate_risk_eq, calculate_risk_eq, List.Perm.sum_eq (h.map recWeight)]
  · intro h
    have hmaps : bs₁.map recWeight = bs₂.map recWeight := by
      induction h with
      | nil => rfl
      | cons hab _ ih =>
          have hw : recWeight _ = recWeight _ := List.Perm.sum_eq (hab.map weightOf)
          rw [List.map_cons, List.map_cons, ih, hw]
    rw [calculate_risk_eq, calculate_risk_eq, hmaps]

/-- C8 (witness): reversing the mock dataset leaves the score unchanged. -/
theorem c8_witness :
    calculate_risk get_mock_breaches = calculate_risk get_mock_breaches.reverse :=
  (c8_risk_pure get_mock_breaches get_mock_breaches.reverse).2.2.1
    (List.reverse_perm get_mock_breaches).symm

/-- C9: `calculate_risk` of the empty breach list is exactly 0. -/
theorem c9_empty_risk_zero : calculate_risk [] = 0 := by decide

/-- C10: for any non-demo email, a FAILURE live lookup (`None`) produces
risk score 0, the SYSTEM SECURE success banner, `is_sim = False` and a
zero breach count — a dashboard state identical to a confirmed-empty live
result, so "could not reach the service" is user-visibly indistinguishable
from "confirmed clean". -/
theorem c10_failure_vs_empty (email : String) (h : email ≠ "demo@test.com") :
    dashboardView email none = (0, Banner.secure, false, 0)
    ∧ dashboardView email none = dashboardView email (some []) := by
  simp [dashboardView, selectBreaches, dashboardRisk, pyTruthy, alertBanner, h]

/-- C10 (witness): instantiated at a concrete non-demo email. -/
theorem c10_witness :
    dashboardView "user@example.com" none = (0, Banner.secure, false, 0)
    ∧ dashboardView "user@example.com" none = dashboardView "user@example.com" (some []) :=
  c10_failure_vs_empty "user@example.com" (by decide)

end LeakAuditor
